import Mathlib

/-!
Verification development for the Twitter/X thread handler
(`src/twitter_handler.py`, class `TwitterThreadHandler`).

Python strings are modelled as `List Char` (`PyStr`); Unicode character
classes of the `re` module (`\w`, `\d`, `\s`) are modelled by their ASCII
cores, which is exact on every input exercised here.  Fallible code is
modelled with `Option`; the one network call (`requests.get`) is modelled
by an oracle `PyStr → Option NetResponse` (`none` = transport error /
exception raised by `requests.get`), and the pipeline result records how
many network calls were issued and which files were written.  `print`
calls and logging are ignored.
-/

/-- Python strings, modelled as lists of characters. -/
abbrev PyStr := List Char

/-- Python `str.isspace` / regex `\s` class, ASCII core:
space, tab, newline, carriage return, vertical tab, form feed. -/
def isPySpace (c : Char) : Bool :=
  c == ' ' || c == '\t' || c == '\n' || c == '\r' || c == '\x0b' || c == '\x0c'

/-- Regex `\d`, ASCII core. -/
def isDigitChar (c : Char) : Bool := c.isDigit

/-- Regex `\w` (word character), ASCII core: letters, digits, underscore. -/
def isWordChar (c : Char) : Bool := c.isAlphanum || c == '_'

/-- ASCII lower-casing, used to model `re.IGNORECASE`. -/
def asciiLower (c : Char) : Char := c.toLower

/-- `hasPrefL pat s`: the literal `pat` is a prefix of `s`. -/
def hasPrefL : PyStr → PyStr → Bool
  | [], _ => true
  | _ :: _, [] => false
  | c :: p, d :: l => c == d && hasPrefL p l

/-! ## URL classifier (`is_twitter_url`, lines 30-48)

`re.match(r'https?://(www\.)?(twitter\.com|x\.com)/.+/status/\d+', url)`:
anchored at the start, trailing input allowed.  The alternation and the
optional group are resolved by trying both branches (Boolean existence of
a match); `https?` and `twitter\.com|x\.com` are mutually exclusive at any
given position, so no other backtracking arises.  `.` excludes `'\n'`. -/

/-- Strip a leading `https://` or `http://` (the `https?://` part). -/
def stripSchemeHead : PyStr → Option PyStr
  | 'h' :: 't' :: 't' :: 'p' :: 's' :: ':' :: '/' :: '/' :: rest => some rest
  | 'h' :: 't' :: 't' :: 'p' :: ':' :: '/' :: '/' :: rest => some rest
  | _ => none

/-- Does `l` begin with `/status/` followed by at least one digit
(the `/status/\d+` tail of the pattern)? -/
def statusDigitHead : PyStr → Bool
  | '/' :: 's' :: 't' :: 'a' :: 't' :: 'u' :: 's' :: '/' :: c :: _ => isDigitChar c
  | _ => false

/-- Some split `l = a ++ tail` with `a` free of `'\n'` (possibly empty) has
`statusDigitHead tail`; the scanning core of `.*/status/\d+`. -/
def dotStarStatus : PyStr → Bool
  | [] => false
  | c :: rest => statusDigitHead (c :: rest) || (c != '\n' && dotStarStatus rest)

/-- `.+/status/\d+`: at least one non-newline character, then `/status/`
and a digit. -/
def dotPlusStatus : PyStr → Bool
  | [] => false
  | c :: rest => c != '\n' && dotStarStatus rest

/-- The `/.+/status/\d+` part following the host. -/
def afterHostPath : PyStr → Bool
  | '/' :: rest => dotPlusStatus rest
  | _ => false

/-- The `(twitter\.com|x\.com)/.+/status/\d+` part. -/
def hostMatch (l : PyStr) : Bool :=
  (hasPrefL "twitter.com".data l && afterHostPath (l.drop 11)) ||
  (hasPrefL "x.com".data l && afterHostPath (l.drop 5))

/-- `is_twitter_url` (lines 30-48): `re.match` of the thread-URL pattern.
The `if not url` guard of line 40 coincides with the pattern failing on the
empty string. -/
def is_twitter_url (url : PyStr) : Bool :=
  match stripSchemeHead url with
  | none => false
  | some rest =>
      (hasPrefL "www.".data rest && hostMatch (rest.drop 4)) || hostMatch rest

/-! ## Identifier extraction (`extract_tweet_id` lines 50-63,
`extract_username` lines 65-78) -/

/-- Match of `re.search(r'/status/(\d+)', ·)` anchored at the current
position: the literal `/status/` followed by the greedy run of digits. -/
def statusDigitsAt (l : PyStr) : Option PyStr :=
  match l with
  | '/' :: 's' :: 't' :: 'a' :: 't' :: 'u' :: 's' :: '/' :: rest =>
      let ds := rest.takeWhile isDigitChar
      if ds.isEmpty then none else some ds
  | _ => none

/-- `extract_tweet_id` (lines 50-63): leftmost match of
`/status/(\d+)`, returning the captured digit run, else `None`. -/
def extract_tweet_id : PyStr → Option PyStr
  | [] => none
  | c :: rest =>
      match statusDigitsAt (c :: rest) with
      | some ds => some ds
      | none => extract_tweet_id rest

/-- Match of `re.search(r'/([\w]+)/status/', ·)` anchored at the current
position.  `[\w]+` is greedy and word characters cannot be `'/'`, so the
only candidate is the maximal word run after the `'/'`: any shorter run is
followed by a word character, never by `/status/`. -/
def usernameAt (l : PyStr) : Option PyStr :=
  match l with
  | '/' :: rest =>
      let w := rest.takeWhile isWordChar
      if w.isEmpty then none
      else if hasPrefL "/status/".data (rest.drop w.length) then some w
      else none
  | _ => none

/-- `extract_username` (lines 65-78): leftmost match of
`/([\w]+)/status/`, returning the captured word run, else `None`. -/
def extract_username : PyStr → Option PyStr
  | [] => none
  | c :: rest =>
      match usernameAt (c :: rest) with
      | some w => some w
      | none => extract_username rest

/-! ## Title inference (`infer_title_from_content`, lines 80-119) -/

/-- Python `str.strip()`: remove leading and trailing whitespace. -/
def pyStrip (l : PyStr) : PyStr :=
  ((l.dropWhile isPySpace).reverse.dropWhile isPySpace).reverse

/-- `str.split('\n\n')` (used at line 92 and, through `'\n\n'.join`, the
round-trip read-back of the output file): split on each occurrence of the
two-character separator, scanning left to right. -/
def splitNN : PyStr → List PyStr
  | [] => [[]]
  | [c] => [[c]]
  | c :: d :: rest =>
      if c = '\n' ∧ d = '\n' then [] :: splitNN rest
      else
        match splitNN (d :: rest) with
        | [] => [[c]]
        | b :: bs => (c :: b) :: bs

/-- `s` contains the two-character separator `\n\n` (the blank-line
block separator) as a substring. -/
def hasNN : PyStr → Bool
  | [] => false
  | [_] => false
  | c :: d :: rest => (c == '\n' && d == '\n') || hasNN (d :: rest)

/-- Length of the match of `https?://\S+` at the current position
(0 if there is no match).  `https?` is case-sensitive; `\S+` greedily
takes the maximal run of non-whitespace and requires at least one
character after the `//`. -/
def urlMatchLen : PyStr → Nat
  | 'h' :: 't' :: 't' :: 'p' :: 's' :: ':' :: '/' :: '/' :: c :: rest =>
      if isPySpace c then 0 else 8 + 1 + ((rest.takeWhile fun d => !isPySpace d).length)
  | 'h' :: 't' :: 't' :: 'p' :: ':' :: '/' :: '/' :: c :: rest =>
      if isPySpace c then 0 else 7 + 1 + ((rest.takeWhile fun d => !isPySpace d).length)
  | _ => 0

/-- `re.sub(r'https?://\S+', '', ·)` (line 98): delete every leftmost,
non-overlapping match; on no match at the current position advance one
character.  The fuel argument (one unit per input position) only serves
termination and is always sufficient. -/
def removeUrlsF : Nat → PyStr → PyStr
  | 0, s => s
  | _ + 1, [] => []
  | fuel + 1, c :: rest =>
      let n := urlMatchLen (c :: rest)
      if n = 0 then c :: removeUrlsF fuel rest
      else removeUrlsF fuel ((c :: rest).drop n)

/-- `re.sub(r'https?://\S+', '', ·)` of line 98. -/
def removeUrls (s : PyStr) : PyStr := removeUrlsF s.length s

/-- Length (8 or 0) of the case-insensitive match of
`\(thread\)|\[thread\]` at the current position (line 101). -/
def markerMatchLen (s : PyStr) : Nat :=
  if (s.take 8).map asciiLower = "(thread)".data ∨
     (s.take 8).map asciiLower = "[thread]".data then 8 else 0

/-- `re.sub(r'\(thread\)|\[thread\]', '', ·, flags=re.IGNORECASE)`
(line 101), fuelled like `removeUrlsF`. -/
def removeMarkersF : Nat → PyStr → PyStr
  | 0, s => s
  | _ + 1, [] => []
  | fuel + 1, c :: rest =>
      let n := markerMatchLen (c :: rest)
      if n = 0 then c :: removeMarkersF fuel rest
      else removeMarkersF fuel ((c :: rest).drop n)

/-- `re.sub(r'\(thread\)|\[thread\]', '', ·, flags=re.IGNORECASE)` of
line 101. -/
def removeMarkers (s : PyStr) : PyStr := removeMarkersF s.length s

/-- One of `.` `!` `?`. -/
def sentencePunct (c : Char) : Bool := c == '.' || c == '!' || c == '?'

/-- First character exists and is whitespace. -/
def firstIsSpace : PyStr → Bool
  | [] => false
  | c :: _ => isPySpace c

/-- `re.split(r'[.!?]\s+', ·)` (line 106): split on each punctuation mark
followed by a greedy run of whitespace; the separator is removed.  Fuelled
like `removeUrlsF`. -/
def splitSentF : Nat → PyStr → List PyStr
  | 0, s => [s]
  | _ + 1, [] => [[]]
  | fuel + 1, c :: rest =>
      if sentencePunct c ∧ firstIsSpace rest then
        [] :: splitSentF fuel (rest.drop (rest.takeWhile isPySpace).length)
      else
        match splitSentF fuel rest with
        | [] => [[c]]
        | b :: bs => (c :: b) :: bs

/-- `re.split(r'[.!?]\s+', ·)` of line 106. -/
def splitSent (s : PyStr) : List PyStr := splitSentF s.length s

/-- Modelled from the spec (section 4.4 step 5): the "first sentence" of a
candidate is the text before the first occurrence of `.`, `!` or `?`
followed by whitespace (the whole candidate when there is no such
boundary).  Used to compare the source's `re.split`-based computation with
the spec's description. -/
def specFirstSentence : PyStr → PyStr
  | [] => []
  | c :: rest =>
      if sentencePunct c ∧ firstIsSpace rest then []
      else c :: specFirstSentence rest

/-- Lines 92-101: first block of the thread text (`split('\n\n')[0]`,
empty for empty input), stripped, URLs removed, thread markers removed. -/
def cleanedCandidate (thread_content : PyStr) : PyStr :=
  let first_tweet := if thread_content.isEmpty then [] else (splitNN thread_content).headD []
  let first_tweet := pyStrip first_tweet
  let first_tweet := removeUrls first_tweet
  removeMarkers first_tweet

/-- Lines 103-113: truncate the cleaned candidate to at most 100
characters, preferring a sentence boundary, else the first 97 characters
plus `"..."`. -/
def titleTruncate (t : PyStr) : PyStr :=
  if 100 < t.length then
    let sentences := splitSent t
    if ¬ sentences.isEmpty ∧ (sentences.headD []).length ≤ 100 then sentences.headD []
    else t.take 97 ++ "...".data
  else t

/-- The `title` variable of lines 103-113, before the fallback check. -/
def titleCandidate (thread_content : PyStr) : PyStr :=
  titleTruncate (cleanedCandidate thread_content)

/-- `infer_title_from_content` (lines 80-119). -/
def infer_title_from_content (thread_content username : PyStr) : PyStr :=
  let title := titleCandidate thread_content
  let title := if (pyStrip title).length < 20 then "Thread by @".data ++ username else title
  pyStrip title

/-! ## Tweet date from the snowflake ID (lines 182-192) -/

/-- Decimal value of a digit string (the value `int(·)` returns on it). -/
def digitsToNat (s : PyStr) : Nat :=
  s.foldl (fun n c => 10 * n + (c.toNat - 48)) 0

/-- Python `int(·)`, modelled on the digit strings produced by
`extract_tweet_id` (the only strings it is applied to here); other forms
`int` accepts, such as signs or surrounding whitespace, are unreachable. -/
def pyInt (s : PyStr) : Option Nat :=
  if s.isEmpty then none
  else if s.all isDigitChar then some (digitsToNat s) else none

/-- `twitter_epoch` of line 186 (Nov 4, 2010 in milliseconds). -/
def twitter_epoch : Nat := 1288834974657

/-- Line 187: `timestamp_ms = (tweet_id_int >> 22) + twitter_epoch`. -/
def snowflakeMillis (n : Nat) : Nat := (n >>> 22) + twitter_epoch

/-- Lines 185-187: parse the ID and decode its timestamp; `none` when
`int(tweet_id)` raises (caught at line 190). -/
def timestampMillisOf (tweet_id : PyStr) : Option Nat :=
  (pyInt tweet_id).map snowflakeMillis

/-- Largest epoch second `datetime.fromtimestamp` accepts
(23:59:59 of year 9999). -/
def maxFromtimestampSec : Nat := 253402300799

/-- Lines 184-192: the tweet date, represented by its epoch milliseconds
(the ISO-8601 rendering `tweet_date.isoformat()` of line 240 is abstracted
to the rendered timestamp).  `none` when `int` or
`datetime.fromtimestamp` raises, caught at lines 190-192. -/
def deriveTweetDate (tweet_id : PyStr) : Option Nat :=
  match timestampMillisOf tweet_id with
  | none => none
  | some ms => if ms / 1000 ≤ maxFromtimestampSec then some ms else none

/-! ## Content extraction (lines 194-225)

`BeautifulSoup` is modelled abstractly: a parsed page (`Soup`) provides,
for each of the four selectors of lines 198-203, the list of matching
elements in document order, and optionally the `<p>` descendants of the
`div.content` container of lines 217-225.  Each element is represented by
its visible text; `elem.get_text(strip=True)` is modelled as `pyStrip` of
that text (exact for elements with a single text node). -/

/-- A parsed Thread Reader App page, as seen by the selector code. -/
structure Soup where
  /-- elements matching `('div', {'class': 'tweet-text'})`, document order -/
  tweetTextDivs : List PyStr
  /-- elements matching `('div', {'class': 'content-tweet'})` -/
  contentTweetDivs : List PyStr
  /-- elements matching `('p', {'class': 'tweet'})` -/
  tweetPs : List PyStr
  /-- elements matching `('div', {'class': 't-main'})` -/
  tMainDivs : List PyStr
  /-- `<p>` descendants of the `div.content` container, `none` when that
  container is absent (`soup.find` returns `None`, line 219) -/
  contentDivPs : Option (List PyStr)
deriving DecidableEq

/-- Lines 209-212: the stripped texts of the elements that survive
`if text and len(text) > 20`, in element order. -/
def qualifyingTexts (elems : List PyStr) : List PyStr :=
  elems.filterMap fun e =>
    let text := pyStrip e
    if text ≠ [] ∧ 20 < text.length then some text else none

/-- The `for tag, attrs in selectors` loop of lines 205-214, with the
accumulating `tweet_texts` list and the `if elements:` guard and
`if tweet_texts: break` of the source. -/
def selectorScan (acc : List PyStr) : List (List PyStr) → List PyStr
  | [] => acc
  | elems :: rest =>
      if elems.isEmpty then selectorScan acc rest
      else
        let acc2 := acc ++ qualifyingTexts elems
        if acc2.isEmpty then selectorScan acc2 rest else acc2

/-- The element lists for the four selectors of lines 198-203, in their
fixed priority order. -/
def selectorLists (s : Soup) : List (List PyStr) :=
  [s.tweetTextDivs, s.contentTweetDivs, s.tweetPs, s.tMainDivs]

/-- The `i`-th selector's element list (`i = 0..3`). -/
def selNth (s : Soup) : Nat → List PyStr
  | 0 => s.tweetTextDivs
  | 1 => s.contentTweetDivs
  | 2 => s.tweetPs
  | 3 => s.tMainDivs
  | _ => []

/-- Lines 194-225: the full extraction — selector loop, then the
`div.content` paragraph fallback of lines 216-225. -/
def extract_tweet_texts (s : Soup) : List PyStr :=
  let tweet_texts := selectorScan [] (selectorLists s)
  if tweet_texts.isEmpty then
    match s.contentDivPs with
    | some ps => qualifyingTexts ps
    | none => []
  else tweet_texts

/-! ## Persistence and the pipeline (lines 18-28, 121-151, 153-264) -/

/-- The handler object; only `base_dir` (set in `__init__`, lines 18-28)
matters to the modelled behaviour.  The default construction sets it to an
absolute path (`os.path.abspath`). -/
structure Handler where
  base_dir : PyStr
deriving DecidableEq

/-- `pathlib` `/` join followed by `str(·)`, for already-normalised left
operands. -/
def joinPath (a b : PyStr) : PyStr :=
  if a.isEmpty then b
  else if a.getLast? = some '/' then a ++ b
  else a ++ '/' :: b

/-- `self.raw_dir = self.base_dir / "transcript" / "raw"` (line 27). -/
def rawDir (h : Handler) : PyStr :=
  joinPath (joinPath h.base_dir "transcript".data) "raw".data

/-- `filename = f"{username}_{tweet_id}_thread.txt"` (line 245). -/
def threadFileName (username tweet_id : PyStr) : PyStr :=
  username ++ '_' :: (tweet_id ++ "_thread.txt".data)

/-- `file_path = self.raw_dir / filename` (line 246). -/
def threadFilePath (h : Handler) (username tweet_id : PyStr) : PyStr :=
  joinPath (rawDir h) (threadFileName username tweet_id)

/-- `pathlib.PurePath.is_absolute` on POSIX: the path starts with `/`. -/
def isAbsolutePath (p : PyStr) : Bool := p.head? == some '/'

/-- `'\n\n'.join(tweet_texts)` (line 228): blocks joined by one blank
line. -/
def joinBlocks : List PyStr → PyStr
  | [] => []
  | [b] => b
  | b :: bs => b ++ '\n' :: '\n' :: joinBlocks bs

/-- The `thread_info` dict of lines 236-242; `created_time` carries the
epoch milliseconds whose ISO-8601 rendering the source stores, or `none`
(`None` in the dict) when no date was derived. -/
structure ThreadInfo where
  title : PyStr
  uploader : PyStr
  url : PyStr
  created_time : Option Nat
  type : PyStr
deriving DecidableEq

/-- The `(success, content_file, thread_info)` result triple, together
with the observable side effects of the invocation: how many `requests.get`
calls were issued and which `(path, content)` file writes were performed
(UTF-8 text writes, line 248-249). -/
structure FetchResult where
  success : Bool
  content_file : Option PyStr
  thread_info : Option ThreadInfo
  netCalls : Nat
  writes : List (PyStr × PyStr)
deriving DecidableEq

/-- An HTTP response as the code observes it: `status_code` and the
parsed body. -/
structure NetResponse where
  status : Nat
  body : Soup
deriving DecidableEq

/-- `threadreader_url = f"https://threadreaderapp.com/thread/{tweet_id}.html"`
(line 167). -/
def threadreaderUrl (tweet_id : PyStr) : PyStr :=
  "https://threadreaderapp.com/thread/".data ++ tweet_id ++ ".html".data

/-- `_fetch_with_threadreader` (lines 153-264).  The network oracle maps
the requested URL to `none` (transport error — the exception is caught at
lines 260-264) or a response.  Exactly one `requests.get` is issued in
every branch.  The date is derived at lines 184-192, extraction at
194-225; on success the file is written (lines 244-249) and the success
triple returned (line 252). -/
def fetchWithThreadreader (h : Handler) (twitter_url tweet_id username : PyStr)
    (net : PyStr → Option NetResponse) : FetchResult :=
  match net (threadreaderUrl tweet_id) with
  | none => ⟨false, none, none, 1, []⟩
  | some response =>
      if response.status = 200 then
        let tweet_date := deriveTweetDate tweet_id
        match extract_tweet_texts response.body with
        | [] => ⟨false, none, none, 1, []⟩
        | t :: ts =>
            let thread_content := joinBlocks (t :: ts)
            let inferred_title := infer_title_from_content thread_content username
            let thread_info : ThreadInfo :=
              ⟨inferred_title, username, twitter_url, tweet_date, "twitter_thread".data⟩
            let file_path := threadFilePath h username tweet_id
            ⟨true, some file_path, some thread_info, 1, [(file_path, thread_content)]⟩
      else ⟨false, none, none, 1, []⟩

/-- `fetch_thread_content` (lines 121-151), the pipeline entry point:
extract the two identifiers, abort with the failure triple when either is
missing (`if not tweet_id or not username`, line 137 — both extractors
return non-empty strings or `None`, so falsiness is `None`-ness), else
delegate to `_fetch_with_threadreader`.  The `try`/`except` of lines
147-151 converts any escaped exception into the failure triple; every
modelled exception is already handled inside. -/
def fetch_thread_content (h : Handler) (twitter_url : PyStr)
    (net : PyStr → Option NetResponse) : FetchResult :=
  match extract_tweet_id twitter_url, extract_username twitter_url with
  | some tweet_id, some username =>
      fetchWithThreadreader h twitter_url tweet_id username net
  | _, _ => ⟨false, none, none, 0, []⟩

/-! ## Helper lemmas -/

/-- One step of the selector loop from an empty accumulator. -/
theorem selectorScan_nil_cons (es : List PyStr) (rest : List (List PyStr)) :
    selectorScan [] (es :: rest) =
      if qualifyingTexts es = [] then selectorScan [] rest else qualifyingTexts es := by
  by_cases he : es.isEmpty
  · have : es = [] := by simpa [List.isEmpty_iff] using he
    subst this
    simp [selectorScan, qualifyingTexts]
  · simp only [selectorScan, he, if_false]
    by_cases hq : qualifyingTexts es = []
    · simp [hq, List.isEmpty_iff]
    · simp [hq, List.isEmpty_iff]

/-! ## C3: snowflake timestamp decoding -/

/-- C3: for every item ID that is a non-empty decimal digit string, the
derived creation timestamp in milliseconds (lines 185-187) equals
`(itemId >> 22) + 1288834974657`. -/
theorem snowflake_timestamp_formula (s : PyStr) (h1 : s ≠ [])
    (h2 : s.all isDigitChar = true) :
    timestampMillisOf s = some (digitsToNat s >>> 22 + 1288834974657) := by
  simp [timestampMillisOf, pyInt, h1, h2, snowflakeMillis, twitter_epoch]

/-- C3 witness: the spec's concrete instance
`itemId = "1234567890123456789"`. -/
theorem snowflake_timestamp_formula_witness :
    timestampMillisOf ("1234567890123456789".data) =
      some (1234567890123456789 >>> 22 + 1288834974657) := by
  rw [snowflake_timestamp_formula ("1234567890123456789".data) (by decide) (by decide)]
  decide

/-! ## C1: what guards the network call -/

/-- C1 counterexample: `"foo/alice/status/123"` does not match the
thread-URL pattern, yet `fetch_thread_content` — which never consults the
pattern — extracts both identifiers from it and issues a network call. -/
theorem nonmatching_url_calls_network :
    is_twitter_url ("foo/alice/status/123".data) = false ∧
    (fetch_thread_content ⟨"/base".data⟩ ("foo/alice/status/123".data)
        (fun _ => none)).netCalls = 1 := by
  constructor
  · decide
  · decide

/-- C1 amended: the actual guard of `fetch_thread_content` (line 137) is
identifier extraction, not the URL pattern: whenever tweet-ID or username
extraction fails, no network call is issued and the failure triple is
returned. -/
theorem extraction_failure_no_network (h : Handler) (url : PyStr)
    (net : PyStr → Option NetResponse)
    (hfail : extract_tweet_id url = none ∨ extract_username url = none) :
    fetch_thread_content h url net = ⟨false, none, none, 0, []⟩ := by
  unfold fetch_thread_content
  rcases hfail with hf | hf
  · rw [hf]
  · rw [hf]
    cases extract_tweet_id url <;> rfl

/-- C1 amended, witness: a string with no `/status/` segment at all. -/
theorem extraction_failure_no_network_witness :
    fetch_thread_content ⟨"/base".data⟩ ("notaurl".data) (fun _ => none) =
      ⟨false, none, none, 0, []⟩ :=
  extraction_failure_no_network ⟨"/base".data⟩ ("notaurl".data) (fun _ => none)
    (Or.inl (by decide))

/-! ## C10: supported URL with unextractable handle -/

/-- C10: `https://x.com/alice-b/status/123` is accepted by
`is_twitter_url` (the `.+` segment tolerates `-`), yet `extract_username`
finds no `/<wordchars>/status/` segment, so the pipeline returns the
failure triple without any network call. -/
theorem supported_url_unextractable_handle :
    is_twitter_url ("https://x.com/alice-b/status/123".data) = true ∧
    extract_username ("https://x.com/alice-b/status/123".data) = none ∧
    ∀ (h : Handler) (net : PyStr → Option NetResponse),
      fetch_thread_content h ("https://x.com/alice-b/status/123".data) net =
        ⟨false, none, none, 0, []⟩ := by
  refine ⟨by decide, by decide, fun h net => ?_⟩
  rfl

/-! ## C8: uniform result shape, no escaping exceptions -/

/-- C8: `fetch_thread_content` is a total function of the input and the
network oracle (all modelled exceptions — transport errors — are handled
inside, lines 147-151 and 260-264), and every result has the uniform
three-part shape: the file path and the metadata are present exactly on
success, absent exactly on failure. -/
theorem fetch_result_uniform_shape (h : Handler) (url : PyStr)
    (net : PyStr → Option NetResponse) :
    ((fetch_thread_content h url net).content_file.isSome =
        (fetch_thread_content h url net).success) ∧
    ((fetch_thread_content h url net).thread_info.isSome =
        (fetch_thread_content h url net).success) := by
  unfold fetch_thread_content fetchWithThreadreader
  cases extract_tweet_id url with
  | none => simp
  | some tweet_id =>
    cases extract_username url with
    | none => simp
    | some username =>
      simp only []
      cases net (threadreaderUrl tweet_id) with
      | none => simp
      | some resp =>
        by_cases hs : resp.status = 200
        · simp only [hs, if_true]
          cases extract_tweet_texts resp.body <;> simp
        · simp [hs]

/-! ## C4: failed invocations are silent -/

/-- C4: every unsuccessful invocation of `_fetch_with_threadreader` —
transport error, non-200 response, or no selector yielding a qualifying
block — returns exactly `(False, None, None)` and performs no file
write. -/
theorem failed_fetch_writes_nothing (h : Handler) (url id uname : PyStr)
    (net : PyStr → Option NetResponse)
    (hfail : match net (threadreaderUrl id) with
      | none => True
      | some resp => resp.status ≠ 200 ∨ extract_tweet_texts resp.body = []) :
    fetchWithThreadreader h url id uname net = ⟨false, none, none, 1, []⟩ := by
  unfold fetchWithThreadreader
  cases hnet : net (threadreaderUrl id) with
  | none => rfl
  | some resp =>
    rw [hnet] at hfail
    by_cases hs : resp.status = 200
    · have hx : extract_tweet_texts resp.body = [] := by
        rcases hfail with hf | hf
        · exact absurd hs hf
        · exact hf
      simp [hs, hx]
    · simp [hs]

/-- C4 witness: a transport error. -/
theorem failed_fetch_writes_nothing_witness :
    fetchWithThreadreader ⟨"/base".data⟩ ("u".data) ("1".data) ("a".data)
        (fun _ => none) = ⟨false, none, none, 1, []⟩ :=
  failed_fetch_writes_nothing ⟨"/base".data⟩ ("u".data) ("1".data) ("a".data)
    (fun _ => none) True.intro

/-! ## C2: selector fallback order -/

/-- The selector loop returns the qualifying texts of the first selector
(index `i`) whose filtered list is non-empty. -/
theorem selectorScan_first_qualifying (s : Soup) (i : Nat) (hi : i < 4)
    (hq : qualifyingTexts (selNth s i) ≠ [])
    (hprev : ∀ j, j < i → qualifyingTexts (selNth s j) = []) :
    selectorScan [] (selectorLists s) = qualifyingTexts (selNth s i) := by
  simp only [selectorLists]
  interval_cases i
  · simp only [selNth] at hq ⊢
    rw [selectorScan_nil_cons, if_neg hq]
  · simp only [selNth] at hq ⊢
    have h0 : qualifyingTexts s.tweetTextDivs = [] := hprev 0 (by omega)
    rw [selectorScan_nil_cons, if_pos h0, selectorScan_nil_cons, if_neg hq]
  · simp only [selNth] at hq ⊢
    have h0 : qualifyingTexts s.tweetTextDivs = [] := hprev 0 (by omega)
    have h1 : qualifyingTexts s.contentTweetDivs = [] := hprev 1 (by omega)
    rw [selectorScan_nil_cons, if_pos h0, selectorScan_nil_cons, if_pos h1,
      selectorScan_nil_cons, if_neg hq]
  · simp only [selNth] at hq ⊢
    have h0 : qualifyingTexts s.tweetTextDivs = [] := hprev 0 (by omega)
    have h1 : qualifyingTexts s.contentTweetDivs = [] := hprev 1 (by omega)
    have h2 : qualifyingTexts s.tweetPs = [] := hprev 2 (by omega)
    rw [selectorScan_nil_cons, if_pos h0, selectorScan_nil_cons, if_pos h1,
      selectorScan_nil_cons, if_pos h2, selectorScan_nil_cons, if_neg hq]

/-- C2: the extractor tries the four selectors in their fixed order; the
first one with a qualifying block (all earlier ones filtering to nothing)
determines the entire result, which is its filtered element list in
document order; and no later selector is consulted — any page `s2` that
agrees with `s` on the selectors up to `i` yields the same result, whatever
its later selectors or its fallback container hold. -/
theorem extraction_selector_priority (s s2 : Soup) (i : Nat) (hi : i < 4)
    (hq : qualifyingTexts (selNth s i) ≠ [])
    (hprev : ∀ j, j < i → qualifyingTexts (selNth s j) = [])
    (hagree : ∀ j, j ≤ i → selNth s2 j = selNth s j) :
    extract_tweet_texts s = qualifyingTexts (selNth s i) ∧
    extract_tweet_texts s2 = qualifyingTexts (selNth s i) := by
  have e1 := selectorScan_first_qualifying s i hi hq hprev
  have hq2 : qualifyingTexts (selNth s2 i) ≠ [] := by
    rw [hagree i (Nat.le_refl i)]; exact hq
  have hprev2 : ∀ j, j < i → qualifyingTexts (selNth s2 j) = [] := by
    intro j hj
    rw [hagree j (Nat.le_of_lt hj)]; exact hprev j hj
  have e2 := selectorScan_first_qualifying s2 i hi hq2 hprev2
  rw [hagree i (Nat.le_refl i)] at e2
  constructor
  · simp only [extract_tweet_texts]
    rw [e1]
    simp [List.isEmpty_iff, hq]
  · simp only [extract_tweet_texts]
    rw [e2]
    simp [List.isEmpty_iff, hq]

/-- C2 witness: a page whose first selector holds one long block; a second
page agreeing on that selector but with extra later-selector content and a
fallback container gives the same result. -/
theorem extraction_selector_priority_witness :
    (qualifyingTexts (selNth ⟨["this block is long enough to qualify".data],
        [], [], [], none⟩ 0) ≠ []) ∧
    extract_tweet_texts ⟨["this block is long enough to qualify".data],
        ["another sufficiently long block here".data], [], [],
        some ["fallback paragraph that is long too".data]⟩ =
      qualifyingTexts (selNth ⟨["this block is long enough to qualify".data],
        [], [], [], none⟩ 0) := by
  refine ⟨by decide, ?_⟩
  exact (extraction_selector_priority
    ⟨["this block is long enough to qualify".data], [], [], [], none⟩
    ⟨["this block is long enough to qualify".data],
      ["another sufficiently long block here".data], [], [],
      some ["fallback paragraph that is long too".data]⟩
    0 (by omega) (by decide) (by omega) (by
      intro j hj
      interval_cases j
      · rfl)).2

/-! ## C5: title truncation for long candidates -/

/-- `re.split` never returns an empty list. -/
theorem splitSentF_ne_nil (fuel : Nat) (s : PyStr) : splitSentF fuel s ≠ [] := by
  match fuel, s with
  | 0, s => simp [splitSentF]
  | fuel + 1, [] => simp [splitSentF]
  | fuel + 1, c :: rest =>
    simp only [splitSentF]
    by_cases hb : sentencePunct c ∧ firstIsSpace rest
    · simp [hb]
    · simp only [hb, if_false]
      cases splitSentF fuel rest <;> simp

/-- With sufficient fuel, the first piece of the sentence split is the
text before the first sentence boundary. -/
theorem splitSentF_headD (fuel : Nat) (s : PyStr) (hf : s.length ≤ fuel) :
    (splitSentF fuel s).headD [] = specFirstSentence s := by
  induction fuel generalizing s with
  | zero =>
    have hs : s = [] := List.length_eq_zero.mp (Nat.le_zero.mp hf)
    subst hs
    simp [splitSentF, specFirstSentence]
  | succ fuel ih =>
    cases s with
    | nil => simp [splitSentF, specFirstSentence]
    | cons c rest =>
      simp only [splitSentF, specFirstSentence]
      by_cases hb : sentencePunct c ∧ firstIsSpace rest
      · simp [hb]
      · simp only [hb, if_false]
        have hr : rest.length ≤ fuel := by
          have := hf
          simp only [List.length_cons] at this
          omega
        have hhead := ih rest hr
        cases hsp : splitSentF fuel rest with
        | nil => exact absurd hsp (splitSentF_ne_nil fuel rest)
        | cons b bs =>
          rw [hsp] at hhead
          simp only [List.headD_cons] at hhead
          simp [hhead]

/-- C5: on a cleaned candidate longer than 100 characters, the truncation
step (lines 103-113) returns the first sentence — the text before the
first `.`, `!` or `?` followed by whitespace, as the spec describes —
verbatim when it has at most 100 characters, and otherwise the first 97
characters of the candidate followed by the ellipsis marker `"..."`. -/
theorem title_truncation_long (t : PyStr) (hlong : 100 < t.length) :
    titleTruncate t =
      if (specFirstSentence t).length ≤ 100 then specFirstSentence t
      else t.take 97 ++ "...".data := by
  have hne := splitSentF_ne_nil t.length t
  have hhead := splitSentF_headD t.length t (Nat.le_refl _)
  simp only [titleTruncate, splitSent]
  rw [if_pos hlong]
  have hie : (splitSentF t.length t).isEmpty = false := by
    simp [List.isEmpty_iff, hne]
  rw [hhead]
  simp [hie]

/-- C5 witness: a 113-character candidate whose first sentence is short. -/
theorem title_truncation_long_witness :
    100 <
      ("Short intro. aaaaaaaaaaaaaaaaaaaaaaaaaaaaaaaaaaaaaaaaaaaaaaaaaaaaaaaaaaaaaaaaaaaaaaaaaaaaaaaaaaaaaaaaaaaaaaaa".data : PyStr).length ∧
    titleTruncate
        "Short intro. aaaaaaaaaaaaaaaaaaaaaaaaaaaaaaaaaaaaaaaaaaaaaaaaaaaaaaaaaaaaaaaaaaaaaaaaaaaaaaaaaaaaaaaaaaaaaaaa".data =
      if (specFirstSentence
            "Short intro. aaaaaaaaaaaaaaaaaaaaaaaaaaaaaaaaaaaaaaaaaaaaaaaaaaaaaaaaaaaaaaaaaaaaaaaaaaaaaaaaaaaaaaaaaaaaaaaa".data).length ≤ 100
      then specFirstSentence
            "Short intro. aaaaaaaaaaaaaaaaaaaaaaaaaaaaaaaaaaaaaaaaaaaaaaaaaaaaaaaaaaaaaaaaaaaaaaaaaaaaaaaaaaaaaaaaaaaaaaaa".data
      else ("Short intro. aaaaaaaaaaaaaaaaaaaaaaaaaaaaaaaaaaaaaaaaaaaaaaaaaaaaaaaaaaaaaaaaaaaaaaaaaaaaaaaaaaaaaaaaaaaaaaaa".data : PyStr).take 97 ++ "...".data :=
  ⟨by decide, title_truncation_long _ (by decide)⟩

/-! ## C6: fallback title for short candidates -/

/-- `str.strip()` is the identity on a string whose first and last
characters are not whitespace. -/
theorem pyStrip_eq_self (l : PyStr)
    (hh : ∀ c, l.head? = some c → isPySpace c = false)
    (hl : ∀ c, l.getLast? = some c → isPySpace c = false) :
    pyStrip l = l := by
  unfold pyStrip
  have h1 : l.dropWhile isPySpace = l := by
    cases l with
    | nil => rfl
    | cons c r => simp [List.dropWhile, hh c rfl]
  rw [h1]
  have h2 : l.reverse.dropWhile isPySpace = l.reverse := by
    cases hrev : l.reverse with
    | nil => rfl
    | cons c r =>
      have hcl : l.getLast? = some c := by
        rw [← List.head?_reverse, hrev]
        rfl
      simp [List.dropWhile, hl c hcl]
  rw [h2, List.reverse_reverse]

/-- The last element of an append with a non-empty right part. -/
theorem getLast_append_ne_nil (a b : PyStr) (hb : b ≠ []) :
    (a ++ b).getLast? = b.getLast? := by
  induction a with
  | nil => rfl
  | cons c a' ih =>
    rw [List.cons_append, List.getLast?_cons, ih]
    cases b with
    | nil => exact absurd rfl hb
    | cons d b' => simp [List.getLast?_cons]

/-- C6 amended: whenever the cleaned-and-truncated candidate is shorter
than 20 characters when trimmed (including the empty-input case), the
result is the trimmed fallback `strip("Thread by @<handle>")`; for a
handle with no trailing whitespace — as every handle produced by
`extract_username` is — this is exactly `"Thread by @<handle>"`. -/
theorem short_candidate_fallback (thread_content username : PyStr)
    (hshort : (pyStrip (titleCandidate thread_content)).length < 20)
    (hhandle : (username.getLast?.all fun c => !isPySpace c) = true) :
    infer_title_from_content thread_content username =
      "Thread by @".data ++ username := by
  simp only [infer_title_from_content]
  rw [if_pos hshort]
  apply pyStrip_eq_self
  · intro c hc
    have : c = 'T' := by
      have he : ("Thread by @".data ++ username).head? = some 'T' := rfl
      rw [he] at hc
      exact (Option.some_inj.mp hc).symm
    subst this
    decide
  · intro c hc
    cases hu : username with
    | nil =>
      subst hu
      have he : (("Thread by @".data ++ ([] : PyStr))).getLast? = some '@' := by decide
      rw [he] at hc
      have : c = '@' := (Option.some_inj.mp hc).symm
      subst this
      decide
    | cons d u' =>
      rw [getLast_append_ne_nil _ _ (by simp [hu])] at hc
      rw [hc] at hhandle
      simpa using hhandle

/-- C6 counterexample: for the handle `"a "` (trailing space) and empty
input, the code returns `strip("Thread by @a ") = "Thread by @a"`, not
exactly the fallback string `"Thread by @a "` the claim promises for
every handle. -/
theorem short_candidate_fallback_counterexample :
    infer_title_from_content [] ("a ".data) ≠ "Thread by @a ".data := by
  decide

/-- C6 amended, witness: empty input text and the handle `"alice"`. -/
theorem short_candidate_fallback_witness :
    infer_title_from_content [] ("alice".data) = "Thread by @alice".data :=
  short_candidate_fallback [] ("alice".data) (by decide) (by decide)

/-! ## C7: write/read round trip -/

/-- Splitting a block without the separator yields just that block. -/
theorem splitNN_no_sep (b : PyStr) (h : hasNN b = false) : splitNN b = [b] := by
  induction b with
  | nil => rfl
  | cons c r ih =>
    cases r with
    | nil => rfl
    | cons d r2 =>
      simp only [hasNN, Bool.or_eq_false_iff] at h
      have hcd : ¬ (c = '\n' ∧ d = '\n') := by
        intro hand
        have := h.1
        simp [hand.1, hand.2] at this
      have htl := ih h.2
      simp only [splitNN, if_neg hcd, htl]

/-- Prepending a separator-free block that does not end in a newline,
followed by the blank-line separator, adds one block to the split. -/
theorem splitNN_append_sep (b t : PyStr) (hb : hasNN b = false)
    (hlast : ∀ c, b.getLast? = some c → c ≠ '\n') :
    splitNN (b ++ '\n' :: '\n' :: t) = b :: splitNN t := by
  induction b with
  | nil => rfl
  | cons c b' ih =>
    cases b' with
    | nil =>
      have hc : c ≠ '\n' := hlast c rfl
      simp only [List.cons_append, List.nil_append]
      simp [splitNN, hc]
    | cons c2 b'' =>
      simp only [hasNN, Bool.or_eq_false_iff] at hb
      have hcd : ¬ (c = '\n' ∧ c2 = '\n') := by
        intro hand
        have := hb.1
        simp [hand.1, hand.2] at this
      have hlast2 : ∀ x, (c2 :: b'').getLast? = some x → x ≠ '\n' := by
        intro x hx
        apply hlast x
        rw [List.getLast?_cons_cons]
        exact hx
      have ihr := ih hb.2 hlast2
      simp only [List.cons_append] at ihr ⊢
      simp only [splitNN, if_neg hcd]
      rw [ihr]

/-- C7 counterexample: `"aaaaaaaaaaa\n\nbbbbbbbbbbbb"` is a legitimate
extracted block — non-empty, stripped, longer than 20 characters
(`get_text(strip=True)` keeps interior blank lines) — yet writing the
one-block thread and splitting the file content back on the blank-line
separator yields two blocks, not the original list. -/
theorem thread_roundtrip_counterexample :
    pyStrip ("aaaaaaaaaaa\n\nbbbbbbbbbbbb".data) = "aaaaaaaaaaa\n\nbbbbbbbbbbbb".data ∧
    ("aaaaaaaaaaa\n\nbbbbbbbbbbbb".data : PyStr) ≠ [] ∧
    20 < ("aaaaaaaaaaa\n\nbbbbbbbbbbbb".data : PyStr).length ∧
    splitNN (joinBlocks ["aaaaaaaaaaa\n\nbbbbbbbbbbbb".data]) ≠
      ["aaaaaaaaaaa\n\nbbbbbbbbbbbb".data] := by
  refine ⟨by decide, by decide, by decide, by decide⟩

/-- C7 amended: for every non-empty list of blocks that contain no
embedded blank-line separator and do not end in a newline (trimmed
extracted blocks never end in whitespace, but may embed `\n\n`, hence the
counterexample), joining with one blank line (line 228) and splitting the
file content back on `\n\n` recovers exactly the original blocks. -/
theorem thread_roundtrip (bs : List PyStr) (hne : bs ≠ [])
    (hgood : ∀ b ∈ bs, hasNN b = false ∧ ∀ c, b.getLast? = some c → c ≠ '\n') :
    splitNN (joinBlocks bs) = bs := by
  induction bs with
  | nil => exact absurd rfl hne
  | cons b rest ih =>
    cases rest with
    | nil =>
      have := hgood b (by simp)
      simpa [joinBlocks] using splitNN_no_sep b this.1
    | cons b2 r2 =>
      have hb := hgood b (by simp)
      have hjoin : joinBlocks (b :: b2 :: r2) = b ++ '\n' :: '\n' :: joinBlocks (b2 :: r2) := rfl
      rw [hjoin, splitNN_append_sep b _ hb.1 hb.2]
      rw [ih (by simp) (fun x hx => hgood x (by simp [hx]))]

/-- C7 amended, witness: the spec's round-trip instance, two 30-character
blocks. -/
theorem thread_roundtrip_witness :
    splitNN (joinBlocks ["AAAAAAAAAAAAAAAAAAAAAAAAAAAAAA".data,
        "BBBBBBBBBBBBBBBBBBBBBBBBBBBBBB".data]) =
      ["AAAAAAAAAAAAAAAAAAAAAAAAAAAAAA".data,
        "BBBBBBBBBBBBBBBBBBBBBBBBBBBBBB".data] :=
  thread_roundtrip _ (by decide) (by decide)

/-! ## C9: the success result -/

/-- Joining preserves an absolute left operand. -/
theorem joinPath_absolute (a b : PyStr) (h : isAbsolutePath a = true) :
    isAbsolutePath (joinPath a b) = true := by
  cases a with
  | nil => simp [isAbsolutePath] at h
  | cons c a' =>
    have hc : c = '/' := by simpa [isAbsolutePath] using h
    subst hc
    unfold joinPath
    by_cases hl : (('/' : Char) :: a').getLast? = some '/' <;>
      simp [hl, isAbsolutePath]

/-- C9 amended: a successful invocation returns the file path
`<rawDir>/<username>_<tweetId>_thread.txt` — absolute whenever the
handler's base directory is absolute, as it is under the default
construction — together with metadata holding exactly the inferred title,
the extracted username as uploader, the original URL, the derived creation
time or `None`, and the constant type `"twitter_thread"`; and exactly that
one file is written, with the joined blocks as content. -/
theorem success_result_fields (h : Handler) (url tweet_id username : PyStr)
    (net : PyStr → Option NetResponse) (resp : NetResponse)
    (hid : extract_tweet_id url = some tweet_id)
    (hun : extract_username url = some username)
    (hnet : net (threadreaderUrl tweet_id) = some resp)
    (hst : resp.status = 200)
    (hx : extract_tweet_texts resp.body ≠ []) :
    fetch_thread_content h url net =
      ⟨true, some (threadFilePath h username tweet_id),
        some ⟨infer_title_from_content
                (joinBlocks (extract_tweet_texts resp.body)) username,
              username, url, deriveTweetDate tweet_id, "twitter_thread".data⟩,
        1, [(threadFilePath h username tweet_id,
             joinBlocks (extract_tweet_texts resp.body))]⟩ ∧
    (isAbsolutePath h.base_dir = true →
      isAbsolutePath (threadFilePath h username tweet_id) = true) := by
  constructor
  · unfold fetch_thread_content
    rw [hid, hun]
    dsimp only
    unfold fetchWithThreadreader
    rw [hnet]
    dsimp only
    rw [if_pos hst]
    cases hxx : extract_tweet_texts resp.body with
    | nil => exact absurd hxx hx
    | cons t ts => rfl
  · intro habs
    exact joinPath_absolute _ _ (joinPath_absolute _ _ (joinPath_absolute _ _ habs))

/-- C9 counterexample: with a handler built on the relative base directory
`"rel"`, a successful invocation returns the relative path
`rel/transcript/raw/alice_123_thread.txt` — the returned file path of a
successful invocation is not always absolute. -/
theorem success_result_relative_path_counterexample :
    (fetch_thread_content ⟨"rel".data⟩ ("https://x.com/alice/status/123".data)
        (fun _ => some ⟨200,
          ⟨["this tweet text block is long enough".data], [], [], [], none⟩⟩)).success
      = true ∧
    (fetch_thread_content ⟨"rel".data⟩ ("https://x.com/alice/status/123".data)
        (fun _ => some ⟨200,
          ⟨["this tweet text block is long enough".data], [], [], [], none⟩⟩)).content_file
      = some ("rel/transcript/raw/alice_123_thread.txt".data) ∧
    isAbsolutePath ("rel/transcript/raw/alice_123_thread.txt".data) = false := by
  refine ⟨by decide, by decide, by decide⟩

/-- C9 amended, witness: an absolute base directory and a page with one
qualifying block. -/
theorem success_result_fields_witness :
    fetch_thread_content ⟨"/data".data⟩ ("https://x.com/alice/status/123".data)
        (fun _ => some ⟨200,
          ⟨["this tweet text block is long enough".data], [], [], [], none⟩⟩) =
      ⟨true, some (threadFilePath ⟨"/data".data⟩ ("alice".data) ("123".data)),
        some ⟨infer_title_from_content
                (joinBlocks (extract_tweet_texts
                  ⟨["this tweet text block is long enough".data], [], [], [], none⟩))
                ("alice".data),
              "alice".data, "https://x.com/alice/status/123".data,
              deriveTweetDate ("123".data), "twitter_thread".data⟩,
        1, [(threadFilePath ⟨"/data".data⟩ ("alice".data) ("123".data),
             joinBlocks (extract_tweet_texts
               ⟨["this tweet text block is long enough".data], [], [], [], none⟩))]⟩ ∧
    (isAbsolutePath ("/data".data) = true →
      isAbsolutePath (threadFilePath ⟨"/data".data⟩ ("alice".data) ("123".data)) = true) :=
  success_result_fields ⟨"/data".data⟩ ("https://x.com/alice/status/123".data)
    ("123".data) ("alice".data)
    (fun _ => some ⟨200, ⟨["this tweet text block is long enough".data], [], [], [], none⟩⟩)
    ⟨200, ⟨["this tweet text block is long enough".data], [], [], [], none⟩⟩
    (by decide) (by decide) rfl rfl (by decide)
